import Mathlib

/-!
Verification of the LatteSec/log asynchronous logging library.

This file gives a shallow embedding, in Lean 4, of the parts of the Go
source the frozen claims are about, and settles each claim against it.

Modelling conventions:
* Go `int64` / `Level` (an `int`) are modelled as `Int`; overflow is
  irrelevant to every claim (all values stay tiny).
* Go strings are modelled as Lean `String`; where the code manipulates the
  character content (`strings.TrimSuffix`, rendering), the model works on
  the underlying `List Char` (`String.data`).
* Goroutines, channels and locks: the claims describe the sequential
  contract of each operation, so stateful code is modelled as explicit
  state-passing functions; channel sends become list appends; a handler's
  cancellable context is a `ctxDone` flag; optional hook functions
  (`StartFunc`, `CancelPreFunc`, ...) are modelled by passing their result
  (`Option GoErr`, `none` meaning "absent or returned nil") to the engine.
* File-system effects (opening the log file in `StartFunc`) are modelled
  as always succeeding; no claim depends on an I/O failure.
-/

namespace LatteLog

/-- Log levels, from log.go: `TRACE DEBUG INFO WARN ERROR QUIET = 0..5`.
`Level` is a Go `int`, modelled as `Int`. -/
def TRACE : Int := 0

/-- Level `DEBUG = 1` (log.go). -/
def DEBUG : Int := 1

/-- Level `INFO = 2` (log.go). -/
def INFO : Int := 2

/-- Level `WARN = 3` (log.go). -/
def WARN : Int := 3

/-- Level `ERROR = 4` (log.go). -/
def ERROR : Int := 4

/-- Level `QUIET = 5` (log.go). -/
def QUIET : Int := 5

/-- `levelNames` from log.go. -/
def levelNames : List String := ["TRACE", "DEBUG", "INFO", "WARN", "ERROR", "QUIET"]

/-- `levelNames[lm.Level]` — indexing the name table.  A Go index out of
range panics; the claims never exercise that case, the model returns `""`. -/
def levelString (l : Int) : String := levelNames.getD l.toNat ""

/-- The shared error vocabulary (log.go, handler.go).  Go compares these by
identity (`errors.Is`); the model compares constructors. -/
inductive GoErr where
  | notStarted
  | alreadyStarted
  | invalidLogHandler
  | invalidLogLevel
  | invalidMaxFileSize
  | missingLogFilename
  | skipClose
  | startFuncFailed
  deriving DecidableEq, Repr

/-- `LogMessageMetaKV` (message.go): one ordered key/value metadata pair. -/
structure LogMessageMetaKV where
  K : String
  V : String
  deriving DecidableEq, Repr

/-- A Go slice of metadata pairs: the element sequence plus the backing
capacity, which `releaseLogMessage` inspects (`cap(lm.Meta) > 16`). -/
structure MetaSlice where
  data : List LogMessageMetaKV
  cap : Nat
  deriving DecidableEq, Repr

/-- `LogMessage` (message.go).  `Timestamp` is modelled by its rendered
RFC3339Nano string (the only use the claims make of it).  The `send`
field is omitted: `pool.go` and `String` never read or write it. -/
structure LogMessage where
  Timestamp : String
  Level : Int
  Message : String
  Meta : MetaSlice
  trace : String
  caller : String
  loggerName : String
  deriving DecidableEq, Repr

/-- Go `strings.TrimSuffix s suf`, on character lists: removes ONE trailing
copy of `suf` when present, otherwise returns `s` unchanged. -/
def goTrimSuffix (s suf : List Char) : List Char :=
  if suf.isSuffixOf s then s.take (s.length - suf.length) else s

/-- The metadata block of `LogMessage.String` (message.go): empty when no
pair is attached, otherwise a space, then a brace-delimited,
comma-separated `key=value` list in attachment order. -/
def metaChars (pairs : List LogMessageMetaKV) : List Char :=
  if 0 < pairs.length then
    ' ' :: '\x7b' :: (List.intercalate [',', ' ']
      (pairs.map fun p => p.K.data ++ '=' :: p.V.data)) ++ ['\x7d']
  else []

/-- The verbose trace/caller block of `LogMessage.String` (message.go). -/
def debugChars (lm : LogMessage) : List Char :=
  if lm.trace ≠ "" ∨ lm.caller ≠ "" then
    "\n==== DEBUG ====\nCaller: ".data ++ lm.caller.data
      ++ "\nTrace: ".data ++ lm.trace.data ++ "===== END =====\n\n".data
  else []

/-- The `<ts> [<LEVEL>] <name>: <trimmed message>` part of
`LogMessage.String` (message.go): the format string
`"%s [%s] %s: %s"` applied to the timestamp, level name, effective logger
name (the override, or the message's own stored name when the override is
empty) and the message text with one trailing newline trimmed. -/
def headerChars (lm : LogMessage) (loggerName : String) : List Char :=
  let name := if loggerName = "" then lm.loggerName else loggerName
  lm.Timestamp.data ++ " [".data ++ (levelString lm.Level).data ++ "] ".data
    ++ name.data ++ ": ".data ++ goTrimSuffix lm.Message.data ['\n']

/-- `LogMessage.String(loggerName)` (message.go): renders
`<ts> [<LEVEL>] <name>: <message>{ k=v, ...}<debug block>`, trimming one
trailing newline from the raw message, trimming one trailing newline from
the whole result, then appending `"\n"`. -/
def LogMessage.renderChars (lm : LogMessage) (loggerName : String) : List Char :=
  goTrimSuffix
    (headerChars lm loggerName ++ metaChars lm.Meta.data ++ debugChars lm)
    ['\n'] ++ ['\n']

/-- `LogMessage.String` as a Lean `String`. -/
def LogMessage.render (lm : LogMessage) (loggerName : String) : String :=
  ⟨lm.renderChars loggerName⟩

/-- The claim's description of the metadata segment: a space, then a
brace-delimited, comma-separated `key=value` list of every attached pair
in attachment order. -/
def metaSegmentSpec (pairs : List LogMessageMetaKV) : List Char :=
  ' ' :: '\x7b' :: (List.intercalate [',', ' ']
    (pairs.map fun p => p.K.data ++ '=' :: p.V.data)) ++ ['\x7d']

/-- The rendered string ends in exactly one trailing newline: its last
character is a newline and the character before it (when any) is not. -/
def endsInOneNewline (l : List Char) : Prop :=
  l.getLast? = some '\n' ∧ l.dropLast.getLast? ≠ some '\n'

/- ---------------------------------------------------------------------
Logger builder (builder.go) — claim C1.
--------------------------------------------------------------------- -/

/-- `LoggerBuilder` (builder.go): the `LoggerMeta` fields plus the
transient `path` / `maxLogFileSize` construction-only fields.  Handlers
are identified by abstract `Nat` ids. -/
structure LoggerBuilder where
  level : Int
  name : String
  stdoutEnabled : Bool
  stderrEnabled : Bool
  handlers : List Nat
  path : String
  maxLogFileSize : Int
  deriving DecidableEq, Repr

/-- The observable result of `LoggerBuilder.Build`: the logger metadata
plus, when a file path was requested, the file handler's final
max-file-size threshold. -/
structure BuiltLogger where
  level : Int
  name : String
  stdoutEnabled : Bool
  stderrEnabled : Bool
  handlers : List Nat
  fileMaxSize : Option Int
  deriving DecidableEq, Repr

/-- `NewLogger()` (builder.go): defaults WARN, both stream toggles on. -/
def NewLoggerBuilder : LoggerBuilder :=
  { level := WARN, name := "", stdoutEnabled := true, stderrEnabled := true,
    handlers := [], path := "", maxLogFileSize := 0 }

/-- `LoggerBuilder.Build` (builder.go lines 32-66), followed line by line.
`NewFileHandler` is modelled as succeeding (its only failure mode is file
I/O on a fresh registry entry).  A fresh handler's `maxFileSize` is the Go
zero value `0`; the `switch` assigns `1<<20` / `0` for requests `0` / `-1`
— and then line 53 unconditionally runs
`fh.SetMaxFileSize(lb.maxLogFileSize)`, overwriting whatever the `switch`
chose.  The model keeps both steps so the overwrite is visible. -/
def LoggerBuilder.build (lb : LoggerBuilder) : Except GoErr BuiltLogger :=
  if lb.level ≤ TRACE ∨ QUIET < lb.level then .error .invalidLogLevel
  else if lb.path ≠ "" then
    -- switch lb.maxLogFileSize { case 0 / case -1 / default }
    let afterSwitch : Except GoErr Int :=
      if lb.maxLogFileSize = 0 then .ok 1048576        -- fh.SetMaxFileSize(1 << 20)
      else if lb.maxLogFileSize = -1 then .ok 0        -- fh.SetMaxFileSize(0)
      else if lb.maxLogFileSize < 0 then .error .invalidMaxFileSize
      else .ok 0                                       -- default: fh keeps its zero value
    match afterSwitch with
    | .error e => .error e
    | .ok _switchValue =>
      -- line 53: fh.SetMaxFileSize(lb.maxLogFileSize) — unconditional,
      -- discarding _switchValue
      .ok { level := lb.level,
            name := if lb.name = "" then "???" else lb.name,
            stdoutEnabled := lb.stdoutEnabled, stderrEnabled := lb.stderrEnabled,
            handlers := lb.handlers, fileMaxSize := some lb.maxLogFileSize }
  else
    .ok { level := lb.level,
          name := if lb.name = "" then "???" else lb.name,
          stdoutEnabled := lb.stdoutEnabled, stderrEnabled := lb.stderrEnabled,
          handlers := lb.handlers, fileMaxSize := none }

/-- `WithFile(path, size)` (builder.go). -/
def LoggerBuilder.withFile (lb : LoggerBuilder) (path : String) (size : Int) : LoggerBuilder :=
  { lb with path := path, maxLogFileSize := size }

/- ---------------------------------------------------------------------
Message object pool (pool.go) — claim C8.
--------------------------------------------------------------------- -/

/-- The pool's `New` function (pool.go): a zero `LogMessage` with a
metadata slice of length 0, capacity 1.  The zero `time.Time` is modelled
by the empty rendered string. -/
def emptyPoolMessage : LogMessage :=
  { Timestamp := "", Level := 0, Message := "", Meta := { data := [], cap := 1 },
    trace := "", caller := "", loggerName := "" }

/-- `acquireLogMessage(loggerName, msg)` (pool.go), with the pool slot it
operates on passed explicitly (`logMsgPool.Get()`).  Copies timestamp,
level, text, trace and caller from `msg`, stamps `loggerName`, truncates
the slot's metadata slice (`lm.Meta[:0]`, keeping its capacity) and appends
copies of `msg`'s pairs; `append` grows the backing capacity when the slot
is too small (Go may over-allocate; the model records the minimal growth,
which is all the shrink check reads). -/
def acquireLogMessage (slot : LogMessage) (loggerName : String) (msg : LogMessage) :
    LogMessage :=
  { Timestamp := msg.Timestamp, Level := msg.Level, Message := msg.Message,
    trace := msg.trace, caller := msg.caller, loggerName := loggerName,
    Meta := { data := msg.Meta.data,
              cap := max slot.Meta.cap msg.Meta.data.length } }

/-- `releaseLogMessage(lm)` (pool.go): truncates the metadata slice
(keeping capacity), clears trace, caller and logger name, and — when the
capacity has grown beyond 16 — replaces the backing storage with a fresh
length-0 capacity-1 slice before the value re-enters the pool. -/
def releaseLogMessage (lm : LogMessage) : LogMessage :=
  let lm1 := { lm with Meta := { data := [], cap := lm.Meta.cap },
                       trace := "", caller := "", loggerName := "" }
  if 16 < lm1.Meta.cap then
    { lm1 with Meta := { data := [], cap := 1 } }
  else lm1

/- ---------------------------------------------------------------------
BaseHandler engine (handler.go) — claims C6, C7, C9.
--------------------------------------------------------------------- -/

/-- The state of a `BaseHandler` (handler.go).  `hasHandleFunc` models
`HandleFunc != nil`; `ctxDone` the shared cancellation context; `queue`
the contents of the bounded channel `logCh`; `queueClosed` whether
`close(b.logCh)` has run; `workersLaunched` whether the delivery worker
and subprocess goroutines of the current run were launched. -/
structure BaseHandler where
  running : Bool
  hasHandleFunc : Bool
  ctxDone : Bool
  queue : List LogMessage
  queueClosed : Bool
  cleanupRegistered : Bool
  workersLaunched : Bool
  deriving DecidableEq, Repr

/-- A `BaseHandler` as a concrete handler constructor leaves it before
`Start`: not running, a `HandleFunc` configured, nothing launched. -/
def notStartedHandler : BaseHandler :=
  { running := false, hasHandleFunc := true, ctxDone := false, queue := [],
    queueClosed := false, cleanupRegistered := false, workersLaunched := false }

/-- `BaseHandler.IsRunning` (handler.go). -/
def BaseHandler.isRunning (b : BaseHandler) : Bool := b.running

/-- `BaseHandler.Start` (handler.go lines 52-112).  `startFuncResult` is
what the optional `StartFunc` returns (`none`: absent or nil).  Following
the code: the `running` and `HandleFunc` guards come first; then a fresh
context and a fresh 1024-capacity queue are installed and `running` is set
— BEFORE `StartFunc` runs, so a `StartFunc` failure returns early with the
handler already flagged running, the cleanup entry not yet registered and
no goroutine launched. -/
def BaseHandler.start (b : BaseHandler) (startFuncResult : Option GoErr) :
    Except GoErr Unit × BaseHandler :=
  if b.running then (.error .alreadyStarted, b)
  else if !b.hasHandleFunc then (.error .invalidLogHandler, b)
  else
    let b1 : BaseHandler :=
      { b with ctxDone := false, queue := [], queueClosed := false, running := true }
    match startFuncResult with
    | some e => (.error e, b1)
    | none =>
      (.ok (), { b1 with cleanupRegistered := true, workersLaunched := true })

/-- `BaseHandler.close` (handler.go lines 115-158), with the results of the
optional hooks passed in (`none`: absent or returned nil).  `NotStarted`
when not running; a `CancelPreFunc` result of `ErrSkipClose` aborts the
close with success and no further effect; otherwise errors are collected
(`errors.Join`) while the close proceeds: mark not running, deregister the
cleanup entry, cancel the context, run `CancelPostFunc`, wait for the
goroutines, run `CloseFunc`, close the queue.  The combined error is
modelled as the list of non-nil hook errors (empty list: Join gives nil). -/
def BaseHandler.close (b : BaseHandler)
    (cancelPreResult cancelPostResult closeFuncResult : Option GoErr) :
    Except (List GoErr) Unit × BaseHandler :=
  if !b.running then (.error [.notStarted], b)
  else if cancelPreResult = some .skipClose then (.ok (), b)
  else
    let b1 : BaseHandler :=
      { b with running := false, cleanupRegistered := false, ctxDone := true,
               workersLaunched := false, queueClosed := true }
    let errs := [cancelPreResult, cancelPostResult, closeFuncResult].filterMap id
    (if errs = [] then .ok () else .error errs, b1)

/-- `BaseHandler.Handle(loggerName, msg)` (handler.go lines 160-178):
no-op on a nil message, a non-running handler, or a cancelled context;
otherwise one non-blocking attempt to enqueue a pooled copy into the
bounded queue (capacity `1 << 10 = 1024`), dropping the message when the
queue is full.  The pooled copy is `acquireLogMessage` on a pool slot;
by C8 the slot does not affect the copy's observable content, so the model
uses the pool's fresh slot. -/
def BaseHandler.handle (b : BaseHandler) (loggerName : String) (msg : Option LogMessage) :
    BaseHandler :=
  match msg with
  | none => b
  | some m =>
    if !b.running then b
    else if b.ctxDone then b
    else if b.queue.length < 1024 then
      { b with queue := b.queue ++ [acquireLogMessage emptyPoolMessage loggerName m] }
    else b

/- ---------------------------------------------------------------------
Logger send path (logger.go) — claims C2, C3.
--------------------------------------------------------------------- -/

/-- The two process-wide shared default stream handlers (log.go) that
`SendLog` mirrors to. -/
inductive StdTarget where
  | stderrTarget
  | stdoutTarget
  deriving DecidableEq, Repr

/-- `Logger` (logger.go): the `LoggerMeta` fields plus the running flag.
Handlers are identified by abstract `Nat` ids. -/
structure Logger where
  level : Int
  name : String
  stdoutEnabled : Bool
  stderrEnabled : Bool
  handlers : List Nat
  running : Bool
  deriving DecidableEq, Repr

/-- Everything `Logger.SendLog` does with a message: whether it was
dropped by the level filter, the possibly trace/caller-augmented message,
which shared default stream handler (if any) received a mirror `Handle`
call, and the ordered list of attached handlers that received a `Handle`
call. -/
structure SendResult where
  dropped : Bool
  msgOut : LogMessage
  mirrored : Option StdTarget
  dispatched : List Nat
  deriving DecidableEq, Repr

/-- The trace/caller auto-attach step of `Logger.SendLog` (logger.go lines
501-508): capture a stack trace and caller descriptor on the message when
missing.  `autoTrace` / `autoCaller` stand for what `WithTraceStack` /
`WithCaller` would capture. -/
def attachContext (autoTrace autoCaller : String) (msg : LogMessage) : LogMessage :=
  let mA := if msg.trace = "" then { msg with trace := autoTrace } else msg
  if mA.caller = "" then { mA with caller := autoCaller } else mA

/-- `Logger.SendLog` (logger.go lines 494-525), followed line by line.
Note the stderr mirror condition in the code is `msg.Level >= WARN`, and
the level filter is strictly `msg.Level < l.level`. -/
def Logger.sendLog (l : Logger) (autoTrace autoCaller : String) (msg : LogMessage) :
    SendResult :=
  if msg.Level < l.level then
    { dropped := true, msgOut := msg, mirrored := none, dispatched := [] }
  else
    let msg1 :=
      if (l.level = TRACE ∧ ERROR ≤ msg.Level) ∨ msg.Level = TRACE then
        attachContext autoTrace autoCaller msg
      else msg
    let mirrored : Option StdTarget :=
      if l.level ≠ QUIET then
        if WARN ≤ msg1.Level ∧ l.stderrEnabled = true then some .stderrTarget
        else if l.stdoutEnabled = true then some .stdoutTarget
        else none
      else none
    { dropped := false, msgOut := msg1, mirrored := mirrored,
      dispatched := l.handlers }

/- ---------------------------------------------------------------------
Shared-path file handler registry (file_handler.go) — claim C5.
--------------------------------------------------------------------- -/

/-- A `FileHandler` (file_handler.go): the embedded `BaseHandler` plus the
file state the claims observe.  `id` models pointer identity of the
instance; `fileOpen` whether `filePtr != nil`; `fileSynced` whether the
teardown `ptr.Sync()` has run. -/
structure FileHandler where
  base : BaseHandler
  id : Nat
  fileOpen : Bool
  fileSynced : Bool
  deriving DecidableEq, Repr

/-- The `fileHandlers` registry restricted to one fixed path:
`handler` is the instance callers of `NewFileHandler` hold (shared),
`count` the live-owner count of the entry, `inRegistry` whether the map
still contains the path, `nextId` a source of fresh instance identities. -/
structure FileHandlerRegistry where
  handler : Option FileHandler
  count : Int
  inRegistry : Bool
  nextId : Nat
  deriving DecidableEq, Repr

/-- The empty registry: no entry for the path. -/
def emptyFHRegistry : FileHandlerRegistry :=
  { handler := none, count := 0, inRegistry := false, nextId := 0 }

/-- `newRefCounted` (file_handler.go lines 30-78): `LoadOrStore` either
finds the existing entry — increment the count, return the same instance,
and only re-`Start` it when the count was 0 — or stores a fresh handler
whose count becomes 1, in which case the handler is started
(`BaseHandler.Start` with the file-opening `StartFunc`, whose I/O is
modelled as succeeding). -/
def newRefCounted (reg : FileHandlerRegistry) : FileHandler × FileHandlerRegistry :=
  match reg.handler, reg.inRegistry with
  | some fh, true =>
    let cnt := reg.count + 1
    if cnt = 1 then
      -- count was 0: atomic.AddInt32 yields 1, so Start() runs again
      let fh1 := { fh with base := (fh.base.start none).2, fileOpen := true }
      (fh1, { reg with handler := some fh1, count := 1 })
    else (fh, { reg with count := cnt })
  | _, _ =>
    let fh : FileHandler :=
      { base := (notStartedHandler.start none).2, id := reg.nextId,
        fileOpen := true, fileSynced := false }
    (fh, { handler := some fh, count := 1, inRegistry := true,
           nextId := reg.nextId + 1 })

/-- `FileHandler.Close` on the shared instance of the path
(`BaseHandler.Close` with file_handler.go's hook wiring, lines 100-115):
`CancelPreFunc` runs `release()` — decrement the count; a non-last owner
gets `ErrSkipClose`, aborting the close with success; the last owner
proceeds through the full close, whose `CloseFunc` runs `onRelease()` —
sync and close the file and delete the registry entry. -/
def closeShared (reg : FileHandlerRegistry) :
    Except (List GoErr) Unit × FileHandlerRegistry :=
  match reg.handler with
  | none => (.error [.notStarted], reg)
  | some fh =>
    let cnt := reg.count - 1
    let pre : Option GoErr := if cnt = 0 then none else some .skipClose
    let (res, base1) := fh.base.close pre none none
    if cnt = 0 then
      let fh1 := { fh with base := base1, fileOpen := false, fileSynced := true }
      (res, { reg with handler := some fh1, count := 0, inRegistry := false })
    else
      (res, { reg with handler := some { fh with base := base1 }, count := cnt })

/- ---------------------------------------------------------------------
Process-wide cleanup registry (cleanup.go) — claim C10.
--------------------------------------------------------------------- -/

/-- The cleanup registry state (cleanup.go): the id generator
`cleanupIdGen` and the id-to-callback map `cleanupFns`, modelled as an
association list keyed by id; callbacks are abstract `Nat` tags. -/
structure CleanupState where
  idGen : Nat
  fns : List (Nat × Nat)
  deriving DecidableEq, Repr

/-- `registerCleanup(fn)` (cleanup.go lines 24-30):
`id := atomic.AddUint64(&cleanupIdGen, 1)`, insert, return the id.
(Uint64 wraparound is unreachable in any modelled trace.) -/
def registerCleanup (st : CleanupState) (tag : Nat) : Nat × CleanupState :=
  let id := st.idGen + 1
  (id, { idGen := id, fns := st.fns ++ [(id, tag)] })

/-- `unregisterCleanup(id)` (cleanup.go): delete the map entry, no-op when
absent. -/
def unregisterCleanup (st : CleanupState) (id : Nat) : CleanupState :=
  { st with fns := st.fns.filter (fun p => p.1 ≠ id) }

/-- `runCleanup` (cleanup.go lines 38-53): snapshot the callbacks, clear
the map, and reset the id generator to 0 (`atomic.StoreUint64`), then run
the snapshot (Go map iteration order is unspecified; the model returns
insertion order — irrelevant to the claims). -/
def runCleanup (st : CleanupState) : List Nat × CleanupState :=
  (st.fns.map Prod.snd, { idGen := 0, fns := [] })

/- ---------------------------------------------------------------------
Claim statements quoted for refutation.
--------------------------------------------------------------------- -/

/-- Claim C2 as stated: an unfiltered message on a non-QUIET logger is
mirrored to the shared default-stderr handler exactly when its level is
`ERROR` or above and the stderr toggle is on, and every other message goes
to the shared default-stdout handler when the stdout toggle is on. -/
def c2ClaimStatement : Prop :=
  ∀ (l : Logger) (t c : String) (msg : LogMessage),
    ¬ msg.Level < l.level → l.level ≠ QUIET →
    ((l.sendLog t c msg).mirrored = some .stderrTarget ↔
        ERROR ≤ msg.Level ∧ l.stderrEnabled = true)
    ∧ (¬(ERROR ≤ msg.Level ∧ l.stderrEnabled = true) →
        ((l.sendLog t c msg).mirrored = some .stdoutTarget ↔ l.stdoutEnabled = true))

/-- Claim C4 as stated: every message with at least one metadata pair
renders with the brace-delimited comma-separated `key=value` segment of
all its pairs in attachment order, AND every rendered message ends in
exactly one trailing newline regardless of how many trailing newlines the
raw message text contains. -/
def c4ClaimStatement : Prop :=
  ∀ (lm : LogMessage) (nmArg : String),
    (lm.Meta.data ≠ [] →
      ∃ pre post, lm.renderChars nmArg = pre ++ metaSegmentSpec lm.Meta.data ++ post)
    ∧ endsInOneNewline (lm.renderChars nmArg)

end LatteLog

namespace LatteLog

/-- C1: for a builder with `WithFile(path, 0)`, `Build` is claimed to leave
the file handler with the default 1 MiB threshold, and `-1` is claimed to
disable rotation (threshold 0).  In the code the `switch` that assigns
those values is immediately clobbered by the unconditional
`fh.SetMaxFileSize(lb.maxLogFileSize)` on builder.go line 53, so `0` ends
as threshold `0` and `-1` ends as threshold `-1` — contradicting
`WithFile`'s own doc comment ("set to -1 to disable rotations", yet the
rotation loop only treats `0` as disabled).  This theorem evaluates the
embedded `Build` at the failing inputs. -/
theorem c1_build_maxFileSize_clobbered :
    ((NewLoggerBuilder.withFile "app.log" 0).build.map (·.fileMaxSize)
        = .ok (some 0) ∧ (0 : Int) ≠ 1048576)
    ∧ ((NewLoggerBuilder.withFile "app.log" (-1)).build.map (·.fileMaxSize)
        = .ok (some (-1)) ∧ (-1 : Int) ≠ 0)
    ∧ (NewLoggerBuilder.withFile "app.log" (-2)).build = .error .invalidMaxFileSize
    ∧ (NewLoggerBuilder.withFile "app.log" 7).build.map (·.fileMaxSize)
        = .ok (some 7) :=
  ⟨⟨rfl, by decide⟩, ⟨rfl, by decide⟩, rfl, rfl⟩

/-- The auto-attach step never changes the message's level. -/
theorem attachContext_Level (t c : String) (msg : LogMessage) :
    (attachContext t c msg).Level = msg.Level := by
  unfold attachContext
  by_cases h1 : msg.trace = "" <;> simp only [h1, if_true, if_false] <;> split <;> rfl

/-- Helper: the mirror target chosen by `SendLog` for an unfiltered
message, expressed over the incoming message's level (the trace/caller
auto-attach step never changes the level). -/
theorem sendLog_mirrored (l : Logger) (t c : String) (msg : LogMessage)
    (hpass : ¬ msg.Level < l.level) :
    (l.sendLog t c msg).mirrored =
      if l.level ≠ QUIET then
        if WARN ≤ msg.Level ∧ l.stderrEnabled = true then some .stderrTarget
        else if l.stdoutEnabled = true then some .stdoutTarget
        else none
      else none := by
  unfold Logger.sendLog
  rw [if_neg hpass]
  dsimp only
  split
  · have hL : (if l.level = TRACE ∧ ERROR ≤ msg.Level ∨ msg.Level = TRACE then
        attachContext t c msg else msg).Level = msg.Level := by
      split
      · exact attachContext_Level t c msg
      · rfl
    rw [hL]
  · rfl

/-- C2 counterexample: a `WARN` message on a logger with threshold `WARN`
and both stream toggles enabled is mirrored to the shared default-STDERR
handler (logger.go line 515 tests `msg.Level >= WARN`), although `WARN` is
not `ERROR`-or-above — the claim says such a message goes to stdout. -/
theorem c2_counterexample : ¬ c2ClaimStatement := by
  intro h
  have h1 := (h { level := WARN, name := "x", stdoutEnabled := true,
                  stderrEnabled := true, handlers := [], running := true }
                "" ""
                { Timestamp := "", Level := WARN, Message := "m",
                  Meta := { data := [], cap := 1 }, trace := "t", caller := "c",
                  loggerName := "" }
                (by decide) (by decide)).1
  have h2 := h1.mp (by decide)
  exact absurd h2.1 (by decide)

/-- C2 amended: the stderr mirror threshold is `WARN`-and-above (which in
particular covers the fatal path, rendered at `ERROR`), not
`ERROR`-and-above; every message not mirrored to stderr is mirrored to the
shared default-stdout handler exactly when the stdout toggle is on. -/
theorem c2_mirror_warn_threshold (l : Logger) (t c : String) (msg : LogMessage)
    (hpass : ¬ msg.Level < l.level) (hq : l.level ≠ QUIET) :
    ((l.sendLog t c msg).mirrored = some .stderrTarget ↔
        WARN ≤ msg.Level ∧ l.stderrEnabled = true)
    ∧ ((l.sendLog t c msg).mirrored = some .stdoutTarget ↔
        ¬(WARN ≤ msg.Level ∧ l.stderrEnabled = true) ∧ l.stdoutEnabled = true) := by
  rw [sendLog_mirrored l t c msg hpass, if_pos hq]
  by_cases h1 : WARN ≤ msg.Level ∧ l.stderrEnabled = true
  · rw [if_pos h1]
    refine ⟨⟨fun _ => h1, fun _ => rfl⟩,
            ⟨fun hEq => absurd (Option.some.inj hEq) (by decide),
             fun hc2 => absurd h1 hc2.1⟩⟩
  · rw [if_neg h1]
    by_cases h2 : l.stdoutEnabled = true
    · rw [if_pos h2]
      refine ⟨⟨fun hEq => absurd (Option.some.inj hEq) (by decide),
              fun hc2 => absurd hc2 h1⟩,
             ⟨fun _ => ⟨h1, h2⟩, fun _ => rfl⟩⟩
    · rw [if_neg h2]
      refine ⟨⟨fun hEq => (nomatch hEq), fun hc2 => absurd hc2 h1⟩,
              ⟨fun hEq => (nomatch hEq), fun hc2 => absurd hc2.2 h2⟩⟩

/-- Witness for C2's amended theorem at a concrete input: threshold WARN,
both toggles on, message at WARN — mirrored to stderr. -/
theorem c2_mirror_warn_threshold_witness :
    (Logger.sendLog
        { level := WARN, name := "x", stdoutEnabled := true, stderrEnabled := true,
          handlers := [], running := true } "" ""
        { Timestamp := "", Level := WARN, Message := "m",
          Meta := { data := [], cap := 1 }, trace := "t", caller := "c",
          loggerName := "" }).mirrored = some .stderrTarget :=
  (c2_mirror_warn_threshold
      { level := WARN, name := "x", stdoutEnabled := true, stderrEnabled := true,
        handlers := [], running := true } "" ""
      { Timestamp := "", Level := WARN, Message := "m",
        Meta := { data := [], cap := 1 }, trace := "t", caller := "c",
        loggerName := "" }
      (by decide) (by decide)).1.mpr (by decide)

/-- C3: `SendLog` drops a message, with no mirroring and no handler
dispatch, exactly when its level is strictly below the logger's threshold;
otherwise it dispatches it to every attached handler exactly once (the
dispatch sequence IS the handler list); and `BaseHandler.Handle` performs
no level filtering of its own — whether a message is enqueued never
depends on the message, only on the handler's state. -/
theorem c3_level_filter_fanout (l : Logger) (t c : String) (msg : LogMessage) :
    ((l.sendLog t c msg).dropped = true ↔ msg.Level < l.level)
    ∧ (msg.Level < l.level →
        l.sendLog t c msg =
          { dropped := true, msgOut := msg, mirrored := none, dispatched := [] })
    ∧ (¬ msg.Level < l.level → (l.sendLog t c msg).dispatched = l.handlers)
    ∧ (∀ (b : BaseHandler) (name : String) (m₁ m₂ : LogMessage),
        (b.handle name (some m₁)).queue.length =
          (b.handle name (some m₂)).queue.length) := by
  refine ⟨?_, ?_, ?_, ?_⟩
  · unfold Logger.sendLog
    split
    · rename_i h
      simp [h]
    · rename_i h
      simp [h]
  · intro hlt
    unfold Logger.sendLog
    rw [if_pos hlt]
  · intro hge
    unfold Logger.sendLog
    rw [if_neg hge]
  · intro b name m₁ m₂
    unfold BaseHandler.handle
    dsimp only
    by_cases h1 : (!b.running) = true
    · rw [if_pos h1, if_pos h1]
    · rw [if_neg h1, if_neg h1]
      by_cases h2 : b.ctxDone = true
      · rw [if_pos h2, if_pos h2]
      · rw [if_neg h2, if_neg h2]
        by_cases h3 : b.queue.length < 1024
        · rw [if_pos h3, if_pos h3]
          simp
        · rw [if_neg h3, if_neg h3]

/-- Witness for C3 at concrete inputs: a DEBUG message on a WARN logger is
dropped outright; an ERROR message is dispatched to both attached
handlers. -/
theorem c3_level_filter_fanout_witness :
    Logger.sendLog
        { level := WARN, name := "x", stdoutEnabled := false, stderrEnabled := false,
          handlers := [3, 4], running := true } "" ""
        { Timestamp := "", Level := DEBUG, Message := "m",
          Meta := { data := [], cap := 1 }, trace := "t", caller := "c",
          loggerName := "" }
      = { dropped := true,
          msgOut := { Timestamp := "", Level := DEBUG, Message := "m",
                      Meta := { data := [], cap := 1 }, trace := "t", caller := "c",
                      loggerName := "" },
          mirrored := none, dispatched := [] }
    ∧ (Logger.sendLog
        { level := WARN, name := "x", stdoutEnabled := false, stderrEnabled := false,
          handlers := [3, 4], running := true } "" ""
        { Timestamp := "", Level := ERROR, Message := "m",
          Meta := { data := [], cap := 1 }, trace := "t", caller := "c",
          loggerName := "" }).dispatched = [3, 4] :=
  ⟨(c3_level_filter_fanout
      { level := WARN, name := "x", stdoutEnabled := false, stderrEnabled := false,
        handlers := [3, 4], running := true } "" ""
      { Timestamp := "", Level := DEBUG, Message := "m",
        Meta := { data := [], cap := 1 }, trace := "t", caller := "c",
        loggerName := "" }).2.1 (by decide),
   (c3_level_filter_fanout
      { level := WARN, name := "x", stdoutEnabled := false, stderrEnabled := false,
        handlers := [3, 4], running := true } "" ""
      { Timestamp := "", Level := ERROR, Message := "m",
        Meta := { data := [], cap := 1 }, trace := "t", caller := "c",
        loggerName := "" }).2.2.1 (by decide)⟩

/-- C6: `Start` fails with `AlreadyStarted` on a running handler and with
`InvalidLogHandler` when no `HandleFunc` is configured, leaving the state
untouched in both cases; `close` fails with `NotStarted` on a non-running
handler; and a `CancelPreFunc` result of the `SkipClose` sentinel makes
`close` return success with no effect at all — the handler stays running
and no teardown step executes. -/
theorem c6_lifecycle_errors (b : BaseHandler) (r pre post cf : Option GoErr) :
    (b.running = true → b.start r = (.error .alreadyStarted, b))
    ∧ (b.running = false → b.hasHandleFunc = false →
        b.start r = (.error .invalidLogHandler, b))
    ∧ (b.running = false → b.close pre post cf = (.error [.notStarted], b))
    ∧ (b.running = true → b.close (some .skipClose) post cf = (.ok (), b)) := by
  refine ⟨?_, ?_, ?_, ?_⟩
  · intro h
    unfold BaseHandler.start
    rw [if_pos h]
  · intro h hf
    unfold BaseHandler.start
    rw [if_neg (by simp [h]), if_pos (by simp [hf])]
  · intro h
    unfold BaseHandler.close
    rw [if_pos (by simp [h])]
  · intro h
    unfold BaseHandler.close
    rw [if_neg (by simp [h]), if_pos rfl]

/-- Witness for C6 at concrete handlers: a running handler, a handler
without a `HandleFunc`, a stopped handler, and a running handler whose
`CancelPreFunc` signals `SkipClose`. -/
theorem c6_lifecycle_errors_witness :
    BaseHandler.start { notStartedHandler with running := true } none
      = (.error .alreadyStarted, { notStartedHandler with running := true })
    ∧ BaseHandler.start { notStartedHandler with hasHandleFunc := false } none
      = (.error .invalidLogHandler, { notStartedHandler with hasHandleFunc := false })
    ∧ BaseHandler.close notStartedHandler none none none
      = (.error [.notStarted], notStartedHandler)
    ∧ BaseHandler.close { notStartedHandler with running := true }
        (some .skipClose) none none
      = (.ok (), { notStartedHandler with running := true }) :=
  ⟨(c6_lifecycle_errors { notStartedHandler with running := true } none none none none).1 rfl,
   (c6_lifecycle_errors { notStartedHandler with hasHandleFunc := false }
      none none none none).2.1 rfl rfl,
   (c6_lifecycle_errors notStartedHandler none none none none).2.2.1 rfl,
   (c6_lifecycle_errors { notStartedHandler with running := true }
      none (some .skipClose) none none).2.2.2 rfl⟩

/-- C7: `Handle` is a no-op on a nil message, a non-running handler, or a
cancelled context; otherwise it makes one non-blocking enqueue attempt of
a pooled copy into the bounded capacity-1024 queue, and a full queue means
the message is dropped with the queue (and all other state) unchanged —
`Handle` is a total function of the state, never blocking the caller. -/
theorem c7_handle_backpressure (b : BaseHandler) (name : String) (m : LogMessage) :
    b.handle name none = b
    ∧ (b.running = false → b.handle name (some m) = b)
    ∧ (b.ctxDone = true → b.handle name (some m) = b)
    ∧ (b.running = true → b.ctxDone = false → b.queue.length < 1024 →
        b.handle name (some m)
          = { b with queue := b.queue ++ [acquireLogMessage emptyPoolMessage name m] })
    ∧ (b.running = true → b.ctxDone = false → ¬ b.queue.length < 1024 →
        b.handle name (some m) = b) := by
  refine ⟨rfl, ?_, ?_, ?_, ?_⟩
  · intro h
    unfold BaseHandler.handle
    dsimp only
    rw [if_pos (by simp [h])]
  · intro h
    unfold BaseHandler.handle
    dsimp only
    by_cases h1 : (!b.running) = true
    · rw [if_pos h1]
    · rw [if_neg h1, if_pos h]
  · intro hr hc hq
    unfold BaseHandler.handle
    dsimp only
    rw [if_neg (by simp [hr]), if_neg (by simp [hc]), if_pos hq]
  · intro hr hc hq
    unfold BaseHandler.handle
    dsimp only
    rw [if_neg (by simp [hr]), if_neg (by simp [hc]), if_neg hq]

/-- Witness for C7 at concrete inputs: a running handler with an empty
queue enqueues the pooled copy; one with a full (1024-element) queue drops
the message. -/
theorem c7_handle_backpressure_witness :
    BaseHandler.handle { notStartedHandler with running := true } "n"
        (some { Timestamp := "", Level := INFO, Message := "m",
                Meta := { data := [], cap := 1 }, trace := "", caller := "",
                loggerName := "" })
      = { notStartedHandler with
          running := true,
          queue := [acquireLogMessage emptyPoolMessage "n"
            { Timestamp := "", Level := INFO, Message := "m",
              Meta := { data := [], cap := 1 }, trace := "", caller := "",
              loggerName := "" }] }
    ∧ BaseHandler.handle
        { notStartedHandler with
          running := true,
          queue := List.replicate 1024 emptyPoolMessage } "n"
        (some { Timestamp := "", Level := INFO, Message := "m",
                Meta := { data := [], cap := 1 }, trace := "", caller := "",
                loggerName := "" })
      = { notStartedHandler with
          running := true,
          queue := List.replicate 1024 emptyPoolMessage } :=
  ⟨by
    have h := (c7_handle_backpressure { notStartedHandler with running := true } "n"
      { Timestamp := "", Level := INFO, Message := "m",
        Meta := { data := [], cap := 1 }, trace := "", caller := "",
        loggerName := "" }).2.2.2.1 rfl rfl (by decide)
    simpa using h,
   by
    have h := (c7_handle_backpressure
      { notStartedHandler with
        running := true,
        queue := List.replicate 1024 emptyPoolMessage } "n"
      { Timestamp := "", Level := INFO, Message := "m",
        Meta := { data := [], cap := 1 }, trace := "", caller := "",
        loggerName := "" }).2.2.2.2 rfl rfl (by rw [List.length_replicate]; omega)
    exact h⟩

/-- C9: when the configured `StartFunc` fails, `Start` returns its error
having launched neither the delivery worker nor any subprocess goroutine
and without registering the cleanup entry — but the handler was already
flagged running before `StartFunc` ran, so it stays flagged running:
`IsRunning()` reports true and every subsequent `Start` call returns
`AlreadyStarted` without changing the state. -/
theorem c9_startfunc_failure (b : BaseHandler) (e : GoErr) (r2 : Option GoErr)
    (hrun : b.running = false) (hhf : b.hasHandleFunc = true) :
    (b.start (some e)).1 = .error e
    ∧ (b.start (some e)).2.running = true
    ∧ (b.start (some e)).2.isRunning = true
    ∧ (b.start (some e)).2.workersLaunched = b.workersLaunched
    ∧ (b.start (some e)).2.cleanupRegistered = b.cleanupRegistered
    ∧ (b.start (some e)).2.start r2 = (.error .alreadyStarted, (b.start (some e)).2) := by
  have hstart : b.start (some e)
      = (.error e,
         { b with ctxDone := false, queue := [], queueClosed := false, running := true }) := by
    unfold BaseHandler.start
    rw [if_neg (by simp [hrun]), if_neg (by simp [hhf])]
  rw [hstart]
  refine ⟨rfl, rfl, rfl, rfl, rfl, ?_⟩
  unfold BaseHandler.start
  rw [if_pos rfl]

/-- Witness for C9: a fresh handler whose `StartFunc` fails is left
flagged running with no goroutines launched, and a second `Start` call
reports `AlreadyStarted`. -/
theorem c9_startfunc_failure_witness :
    (notStartedHandler.start (some .startFuncFailed)).1 = .error .startFuncFailed
    ∧ (notStartedHandler.start (some .startFuncFailed)).2.isRunning = true
    ∧ (notStartedHandler.start (some .startFuncFailed)).2.workersLaunched = false
    ∧ ((notStartedHandler.start (some .startFuncFailed)).2.start none).1
        = .error .alreadyStarted :=
  ⟨(c9_startfunc_failure notStartedHandler .startFuncFailed none rfl rfl).1,
   (c9_startfunc_failure notStartedHandler .startFuncFailed none rfl rfl).2.2.1,
   (c9_startfunc_failure notStartedHandler .startFuncFailed none rfl rfl).2.2.2.1,
   by rw [(c9_startfunc_failure notStartedHandler .startFuncFailed none rfl rfl).2.2.2.2.2]⟩

/-- C5: on a registry entry with at least one live owner of a running
shared file handler, a further acquisition returns the very same handler
instance with the count incremented and without restarting it; an explicit
`Start` on the shared instance returns `AlreadyStarted` (which callers
treat as success); a `Close` by a non-last owner returns success with the
handler still running and the entry still registered (delivery continues:
the running flag is `Handle`'s gate); and only the `Close` that brings the
count to zero performs real teardown — the handler stops, the file is
synced and closed, and the registry entry is removed. -/
theorem c5_shared_refcount (reg : FileHandlerRegistry) (fh : FileHandler) (n : Int)
    (hh : reg.handler = some fh) (hreg : reg.inRegistry = true)
    (hcnt : reg.count = n) (hn : 1 ≤ n) (hrun : fh.base.running = true) :
    newRefCounted reg = (fh, { reg with count := n + 1 })
    ∧ (∀ r, fh.base.start r = (.error .alreadyStarted, fh.base))
    ∧ (2 ≤ n → closeShared reg = (.ok (), { reg with count := n - 1 }))
    ∧ (n = 1 → closeShared reg =
        (.ok (), { reg with
          handler := some { fh with
            base := { fh.base with
              running := false, cleanupRegistered := false,
              ctxDone := true, workersLaunched := false, queueClosed := true },
            fileOpen := false, fileSynced := true },
          count := 0, inRegistry := false })) := by
  obtain ⟨rh, rc, rin, rnid⟩ := reg
  dsimp only at hh hreg hcnt
  subst hh hreg hcnt
  have hclose_skip : fh.base.close (some .skipClose) none none = (.ok (), fh.base) := by
    unfold BaseHandler.close
    rw [if_neg (by simp [hrun]), if_pos rfl]
  have hclose_full : fh.base.close none none none
      = (.ok (), { fh.base with
          running := false, cleanupRegistered := false,
          ctxDone := true, workersLaunched := false, queueClosed := true }) := by
    unfold BaseHandler.close
    rw [if_neg (by simp [hrun]), if_neg (by simp)]
    rfl
  refine ⟨?_, ?_, ?_, ?_⟩
  · unfold newRefCounted
    dsimp only
    rw [if_neg (by omega)]
  · intro r
    unfold BaseHandler.start
    rw [if_pos hrun]
  · intro h2
    have hne : ¬ rc - 1 = 0 := by omega
    unfold closeShared
    dsimp only
    simp only [if_neg hne]
    rw [hclose_skip]
  · intro h1
    subst h1
    unfold closeShared
    dsimp only
    norm_num
    rw [hclose_full]
    exact ⟨rfl, rfl⟩

/-- Witness for C5: starting from the empty registry, two acquisitions for
the path yield a shared running instance with count 2 — the theorem's
hypotheses hold of that state. -/
theorem c5_shared_refcount_witness :
    (newRefCounted (newRefCounted emptyFHRegistry).2).2.handler
        = some (newRefCounted emptyFHRegistry).1
    ∧ (newRefCounted (newRefCounted emptyFHRegistry).2).2.count = 2
    ∧ (closeShared (newRefCounted (newRefCounted emptyFHRegistry).2).2
        = (.ok (), { (newRefCounted (newRefCounted emptyFHRegistry).2).2 with
                      count := 1 })) :=
  ⟨by decide, by decide,
   by
    have h := (c5_shared_refcount (newRefCounted (newRefCounted emptyFHRegistry).2).2
      (newRefCounted emptyFHRegistry).1 2 (by decide) (by decide) (by decide)
      (by decide) (by decide)).2.2.1 (by decide)
    simpa using h⟩

/-- C8: `releaseLogMessage` empties the metadata sequence and clears
trace, caller and logger name, shrinking the backing storage to a fresh
capacity-1 allocation when its capacity exceeded 16; a message then built
by `acquireLogMessage(loggerName, source)` carries exactly the timestamp,
level, text, trace, caller and metadata contents of `source` (copied, not
aliased — the model's lists are values) plus the stamped logger name, and
nothing observable from the previously released message `m`, which does
not occur in any of the acquired message's observable fields. -/
theorem c8_pool_hygiene (m src : LogMessage) (name : String) :
    (releaseLogMessage m).Meta.data = []
    ∧ (releaseLogMessage m).trace = ""
    ∧ (releaseLogMessage m).caller = ""
    ∧ (releaseLogMessage m).loggerName = ""
    ∧ (16 < m.Meta.cap → (releaseLogMessage m).Meta = { data := [], cap := 1 })
    ∧ ((acquireLogMessage (releaseLogMessage m) name src).Timestamp = src.Timestamp
       ∧ (acquireLogMessage (releaseLogMessage m) name src).Level = src.Level
       ∧ (acquireLogMessage (releaseLogMessage m) name src).Message = src.Message
       ∧ (acquireLogMessage (releaseLogMessage m) name src).trace = src.trace
       ∧ (acquireLogMessage (releaseLogMessage m) name src).caller = src.caller
       ∧ (acquireLogMessage (releaseLogMessage m) name src).loggerName = name
       ∧ (acquireLogMessage (releaseLogMessage m) name src).Meta.data = src.Meta.data) := by
  unfold releaseLogMessage acquireLogMessage
  dsimp only
  split
  · exact ⟨rfl, rfl, rfl, rfl, fun _ => rfl, rfl, rfl, rfl, rfl, rfl, rfl, rfl⟩
  · rename_i hcap
    exact ⟨rfl, rfl, rfl, rfl, fun h => absurd h hcap, rfl, rfl, rfl, rfl, rfl, rfl, rfl⟩

/-- Witness for C8 at a concrete over-inflated released message (capacity
20) and a concrete source with one metadata pair. -/
theorem c8_pool_hygiene_witness :
    16 < (20 : Nat)
    ∧ (releaseLogMessage
        { Timestamp := "T", Level := ERROR, Message := "old",
          Meta := { data := [{ K := "k0", V := "v0" }], cap := 20 },
          trace := "tr", caller := "ca", loggerName := "old" }).Meta
        = { data := [], cap := 1 }
    ∧ (acquireLogMessage
        (releaseLogMessage
          { Timestamp := "T", Level := ERROR, Message := "old",
            Meta := { data := [{ K := "k0", V := "v0" }], cap := 20 },
            trace := "tr", caller := "ca", loggerName := "old" })
        "fresh"
        { Timestamp := "S", Level := INFO, Message := "new",
          Meta := { data := [{ K := "k1", V := "v1" }], cap := 1 },
          trace := "", caller := "", loggerName := "" }).Meta.data
        = [{ K := "k1", V := "v1" }] :=
  ⟨by decide,
   (c8_pool_hygiene
      { Timestamp := "T", Level := ERROR, Message := "old",
        Meta := { data := [{ K := "k0", V := "v0" }], cap := 20 },
        trace := "tr", caller := "ca", loggerName := "old" }
      { Timestamp := "S", Level := INFO, Message := "new",
        Meta := { data := [{ K := "k1", V := "v1" }], cap := 1 },
        trace := "", caller := "", loggerName := "" } "fresh").2.2.2.2.1 (by decide),
   (c8_pool_hygiene
      { Timestamp := "T", Level := ERROR, Message := "old",
        Meta := { data := [{ K := "k0", V := "v0" }], cap := 20 },
        trace := "tr", caller := "ca", loggerName := "old" }
      { Timestamp := "S", Level := INFO, Message := "new",
        Meta := { data := [{ K := "k1", V := "v1" }], cap := 1 },
        trace := "", caller := "", loggerName := "" } "fresh").2.2.2.2.2.2.2.2.2.2.2⟩

/-- C10: `runCleanup` resets the id generator to zero after clearing the
registry, so ids are reused across cleanup runs.  Concrete execution:
registering callback tag 1 yields id 1; after `runCleanup`, registering
the unrelated callback tag 2 yields the SAME id 1; `unregisterCleanup`
with the retained older id then removes the newer callback, leaving the
registry empty. -/
theorem c10_cleanup_id_reuse :
    (registerCleanup { idGen := 0, fns := [] } 1).1 = 1
    ∧ (registerCleanup
        (runCleanup (registerCleanup { idGen := 0, fns := [] } 1).2).2 2).1
      = (registerCleanup { idGen := 0, fns := [] } 1).1
    ∧ (registerCleanup
        (runCleanup (registerCleanup { idGen := 0, fns := [] } 1).2).2 2).2.fns
      = [(1, 2)]
    ∧ (unregisterCleanup
        (registerCleanup
          (runCleanup (registerCleanup { idGen := 0, fns := [] } 1).2).2 2).2
        (registerCleanup { idGen := 0, fns := [] } 1).1).fns
      = [] := by
  decide

/-- A one-element list is a suffix of `l ++ [c]` only for `c` itself. -/
theorem isSuffix_single_concat {l : List Char} {c d : Char}
    (h : List.IsSuffix [d] (l ++ [c])) : d = c := by
  obtain ⟨t, ht⟩ := h
  have h1 : (t ++ [d]).getLast? = some d := List.getLast?_concat t
  rw [ht, List.getLast?_concat] at h1
  exact (Option.some.inj h1).symm

/-- Trimming a `"\n"` suffix leaves a list ending in a non-newline
character unchanged. -/
theorem goTrimSuffix_concat_ne (l : List Char) (c : Char) (h : c ≠ '\n') :
    goTrimSuffix (l ++ [c]) ['\n'] = l ++ [c] := by
  have hns : ¬ (['\n'].isSuffixOf (l ++ [c]) = true) := by
    rw [List.isSuffixOf_iff_suffix]
    intro hs
    exact h (isSuffix_single_concat hs).symm
  unfold goTrimSuffix
  rw [if_neg hns]

/-- Trimming a `"\n"` suffix removes exactly one trailing newline. -/
theorem goTrimSuffix_concat_newline (l : List Char) :
    goTrimSuffix (l ++ ['\n']) ['\n'] = l := by
  have hs : ['\n'].isSuffixOf (l ++ ['\n']) = true := by
    rw [List.isSuffixOf_iff_suffix]
    exact ⟨l, rfl⟩
  unfold goTrimSuffix
  rw [if_pos hs]
  simp

/-- With at least one pair attached, the source's metadata block is
exactly the claim's segment. -/
theorem metaChars_eq_spec {pairs : List LogMessageMetaKV} (h : pairs ≠ []) :
    metaChars pairs = metaSegmentSpec pairs := by
  unfold metaChars metaSegmentSpec
  rw [if_pos (List.length_pos.2 h)]

/-- The metadata segment, rebracketed to expose its final `\x7d`. -/
theorem metaSegmentSpec_concat (pairs : List LogMessageMetaKV) :
    metaSegmentSpec pairs
      = (' ' :: '\x7b' :: List.intercalate [',', ' ']
          (pairs.map fun p => p.K.data ++ '=' :: p.V.data)) ++ ['\x7d'] := by
  unfold metaSegmentSpec
  simp

/-- No trace and no caller: no verbose debug block. -/
theorem debugChars_eq_nil {lm : LogMessage} (ht : lm.trace = "") (hc : lm.caller = "") :
    debugChars lm = [] := by
  simp [debugChars, ht, hc]

/-- With a trace or caller attached, the debug block rebracketed to expose
its final newline. -/
theorem debugChars_eq_concat {lm : LogMessage}
    (hd : lm.trace ≠ "" ∨ lm.caller ≠ "") :
    debugChars lm
      = ("\n==== DEBUG ====\nCaller: ".data ++ lm.caller.data
          ++ "\nTrace: ".data ++ lm.trace.data ++ "===== END =====\n".data)
        ++ ['\n'] := by
  unfold debugChars
  rw [if_pos hd]
  have hend : "===== END =====\n\n".data = "===== END =====\n".data ++ ['\n'] := rfl
  rw [hend]
  simp [List.append_assoc]

/-- C4 (amended): every message with at least one metadata pair renders
with the single brace-delimited, comma-separated `key=value` segment of
all its pairs in attachment order, and — when no trace or caller is
attached — the rendered string ends in exactly one trailing newline
regardless of how many trailing newlines the raw message text contains. -/
theorem c4_meta_segment_newline (lm : LogMessage) (nmArg : String)
    (hm : lm.Meta.data ≠ []) :
    (∃ pre post, lm.renderChars nmArg = pre ++ metaSegmentSpec lm.Meta.data ++ post)
    ∧ (lm.trace = "" → lm.caller = "" → endsInOneNewline (lm.renderChars nmArg)) := by
  constructor
  · by_cases hd : lm.trace ≠ "" ∨ lm.caller ≠ ""
    · refine ⟨headerChars lm nmArg,
              ("\n==== DEBUG ====\nCaller: ".data ++ lm.caller.data
                ++ "\nTrace: ".data ++ lm.trace.data ++ "===== END =====\n".data)
                ++ ['\n'], ?_⟩
      unfold LogMessage.renderChars
      rw [metaChars_eq_spec hm, debugChars_eq_concat hd]
      simp only [← List.append_assoc]
      rw [goTrimSuffix_concat_newline]
    · push_neg at hd
      refine ⟨headerChars lm nmArg, ['\n'], ?_⟩
      unfold LogMessage.renderChars
      rw [metaChars_eq_spec hm, debugChars_eq_nil hd.1 hd.2, List.append_nil,
          metaSegmentSpec_concat]
      simp only [← List.append_assoc]
      rw [goTrimSuffix_concat_ne _ '\x7d' (by decide)]
  · intro ht hc
    unfold LogMessage.renderChars
    rw [metaChars_eq_spec hm, debugChars_eq_nil ht hc, List.append_nil,
        metaSegmentSpec_concat]
    simp only [← List.append_assoc]
    rw [goTrimSuffix_concat_ne _ '\x7d' (by decide)]
    constructor
    · rw [List.getLast?_concat]
    · rw [List.dropLast_concat, List.getLast?_concat]
      decide

/-- Witness for C4's amended theorem at a concrete message with two
metadata pairs, no trace and no caller. -/
theorem c4_meta_segment_newline_witness :
    ({ Timestamp := "T", Level := INFO, Message := "hello\n\n\n",
       Meta := { data := [{ K := "k1", V := "v1" }, { K := "k2", V := "v2" }],
                 cap := 2 },
       trace := "", caller := "", loggerName := "" } : LogMessage).Meta.data ≠ []
    ∧ (∃ pre post,
        LogMessage.renderChars
          { Timestamp := "T", Level := INFO, Message := "hello\n\n\n",
            Meta := { data := [{ K := "k1", V := "v1" }, { K := "k2", V := "v2" }],
                      cap := 2 },
            trace := "", caller := "", loggerName := "" } "x"
          = pre ++ metaSegmentSpec
              [{ K := "k1", V := "v1" }, { K := "k2", V := "v2" }] ++ post)
    ∧ endsInOneNewline
        (LogMessage.renderChars
          { Timestamp := "T", Level := INFO, Message := "hello\n\n\n",
            Meta := { data := [{ K := "k1", V := "v1" }, { K := "k2", V := "v2" }],
                      cap := 2 },
            trace := "", caller := "", loggerName := "" } "x") :=
  ⟨by decide,
   (c4_meta_segment_newline
      { Timestamp := "T", Level := INFO, Message := "hello\n\n\n",
        Meta := { data := [{ K := "k1", V := "v1" }, { K := "k2", V := "v2" }],
                  cap := 2 },
        trace := "", caller := "", loggerName := "" } "x" (by decide)).1,
   (c4_meta_segment_newline
      { Timestamp := "T", Level := INFO, Message := "hello\n\n\n",
        Meta := { data := [{ K := "k1", V := "v1" }, { K := "k2", V := "v2" }],
                  cap := 2 },
        trace := "", caller := "", loggerName := "" } "x" (by decide)).2 rfl rfl⟩

/-- C4 counterexample: a message whose raw text ends in three newlines,
with no metadata and no trace/caller, renders to a string ending in TWO
newlines — `strings.TrimSuffix` removes at most one trailing newline from
the message and one from the whole result, so the rendered line does not
end in exactly one trailing newline as the claim states. -/
theorem c4_counterexample : ¬ c4ClaimStatement := by
  intro h
  have h2 := (h { Timestamp := "T", Level := INFO, Message := "a\n\n\n",
                  Meta := { data := [], cap := 1 }, trace := "", caller := "",
                  loggerName := "" } "x").2
  have h3 : ¬ endsInOneNewline
      (LogMessage.renderChars
        { Timestamp := "T", Level := INFO, Message := "a\n\n\n",
          Meta := { data := [], cap := 1 }, trace := "", caller := "",
          loggerName := "" } "x") := by
    unfold endsInOneNewline
    decide
  exact h3 h2

end LatteLog
